import Mathlib

/-!
Verification of the `MorganFingerprintTransformer` component of the
`ai-science-training-series` repository
(`01_machineLearning/part-2_ml-with-materials-data/1_ml-with-fingerprints.ipynb`).

The repository's bespoke logic is:

  def compute_morgan_fingerprints(smiles, fingerprint_length, fingerprint_radius):
      molecule = Chem.MolFromSmiles(smiles)
      fingerprint = AllChem.GetMorganFingerprintAsBitVect(
          molecule, fingerprint_radius, fingerprint_length)
      arr = np.zeros((1,), dtype=np.bool_)
      DataStructs.ConvertToNumpyArray(fingerprint, arr)
      return arr

  class MorganFingerprintTransformer(BaseEstimator, TransformerMixin):
      def __init__(self, length: int = 256, radius: int = 4):
          self.length = length
          self.radius = radius
      def fit(self, X, y=None):
          return self
      def transform(self, X, y=None):
          fing = [compute_morgan_fingerprints(m, self.length, self.radius) for m in X]
          return np.vstack(fing)

The external collaborators (RDKit and numpy) are not part of the repository;
they are modelled below by deterministic Lean functions that reproduce the
behaviour the repository code relies on:

  * `Chem.MolFromSmiles` returns `None` (here `none`) on a malformed
    identifier, without raising;
  * `AllChem.GetMorganFingerprintAsBitVect` called on `None` raises a
    Boost.Python `ArgumentError` whose message describes the mismatched
    call signature (it mentions `NoneType`) but carries neither the
    offending identifier nor its batch position; a negative radius or bit
    count fails the unsigned-integer argument conversion the same way, a
    zero bit count fails an RDKit precondition, and radius 0 is accepted
    (ECFP0); on success it returns a deterministic bit vector of exactly
    `nBits` bits;
  * `DataStructs.ConvertToNumpyArray` resizes the destination array to the
    bit-vector's length and copies the bits into it;
  * `np.vstack` raises a `ValueError` on an empty list of rows and stacks
    the rows unchanged otherwise.

Exceptions are embedded as `Except RDError`; the Python list comprehension
inside `transform`, which aborts at the first exception, is embedded as
`mapExcept`.
-/

/-- One error raised by the external libraries during featurization.
`argumentError` is a Boost.Python signature-mismatch error (its payload is
the textual argument signature of the failed call, which is all the real
exception message communicates about the inputs); `preconditionError` is an
RDKit invariant violation; `valueError` is a numpy `ValueError`. -/
inductive RDError where
  | argumentError (signature : String)
  | preconditionError (message : String)
  | valueError (message : String)
deriving DecidableEq, Repr

/-- An RDKit molecule object, produced by successfully parsing a SMILES
identifier string. -/
structure Mol where
  smiles : String
deriving DecidableEq, Repr

/-- The atom symbols of a molecule, in identifier order (structural model:
the alphabetic characters of the SMILES string). -/
def Mol.atoms (mol : Mol) : List Char :=
  mol.smiles.toList.filter (fun c => c.isAlpha)

/-- Characters admitted by the modelled SMILES parser: a small organic-subset
atom alphabet, aromatic atoms, ring-closure digits, bond and branch symbols.
The valid identifiers used by the notebook (for example "C", methane) are
accepted; strings such as "not-a-valid-identifier" contain characters outside
the alphabet and are rejected. -/
def validSmilesChar (c : Char) : Bool :=
  (['C', 'N', 'O', 'F', 'c', 'n', 'o',
    '(', ')', '=', '#',
    '1', '2', '3', '4', '5', '6', '7', '8', '9'] : List Char).contains c

/-- Model of the external collaborator RDKit's `Chem.MolFromSmiles` (not part
of this repository): parses an identifier string, returning `none` on a
malformed identifier instead of raising. Deterministic. -/
def Chem.MolFromSmiles (smiles : String) : Option Mol :=
  if smiles.toList.all validSmilesChar then some ⟨smiles⟩ else none

/-- The hash of the circular neighborhood of radius `r` around atom `center`
(structural model: a rolling hash of the atom window of width `2*r+1`,
salted with the radius). Deterministic. -/
def neighborhoodHash (atoms : List Char) (center r : Nat) : Nat :=
  ((atoms.drop (center - r)).take (2 * r + 1)).foldl
    (fun h c => (h * 31 + c.toNat) % 1000003) (r + 1)

/-- Modelled from the spec: the fingerprinting procedure of the external
cheminformatics collaborator (RDKit's Morgan algorithm, not part of this
repository) "enumerates circular neighborhoods of each atom up to the
configured radius, hashes each neighborhood to an index in [0, length), and
sets the corresponding bit"; it is deterministic and its output has exactly
`nBits` bits. -/
def morganBits (mol : Mol) (radius nBits : Nat) : List Bool :=
  let atoms := mol.atoms
  let onBits := (List.range atoms.length).flatMap
    (fun center =>
      (List.range (radius + 1)).map (fun r => neighborhoodHash atoms center r % nBits))
  (List.range nBits).map (fun i => onBits.contains i)

/-- Model of the external collaborator RDKit's
`AllChem.GetMorganFingerprintAsBitVect(molecule, radius, nBits)` (not part of
this repository). Receiving `None` for the molecule, or a negative value for
one of the unsigned-integer parameters, fails Boost.Python argument
conversion with an `ArgumentError` describing only the call signature;
`nBits = 0` fails the RDKit precondition "nBits can not be zero"; radius 0 is
a valid radius. On success the result is a deterministic bit vector of
exactly `nBits` bits. -/
def AllChem.GetMorganFingerprintAsBitVect (molecule : Option Mol) (radius nBits : Int) :
    Except RDError (List Bool) :=
  match molecule with
  | none => .error (.argumentError "(NoneType, int, int)")
  | some mol =>
    if radius < 0 ∨ nBits < 0 then
      .error (.argumentError "(Mol, int, int)")
    else if nBits = 0 then
      .error (.preconditionError "nBits can not be zero")
    else
      .ok (morganBits mol radius.toNat nBits.toNat)

/-- Model of numpy's `np.zeros((n,), dtype=np.bool_)`: a length-`n` array of
`False`. -/
def np.zeros (n : Nat) : List Bool :=
  List.replicate n false

/-- Model of the external collaborator RDKit's
`DataStructs.ConvertToNumpyArray(fingerprint, arr)` (not part of this
repository): resizes the destination array to the bit-vector's length and
copies the bits into it, so the result is the fingerprint's bits regardless
of the destination's original size. -/
def DataStructs.ConvertToNumpyArray (fingerprint : List Bool) (arr : List Bool) : List Bool :=
  fingerprint

/-- Model of numpy's `np.vstack`: raises `ValueError` on an empty sequence of
rows ("need at least one array to concatenate"), raises `ValueError` if the
row lengths disagree, and otherwise stacks the rows in order, unchanged. -/
def np.vstack (arrays : List (List Bool)) : Except RDError (List (List Bool)) :=
  match arrays with
  | [] => .error (.valueError "need at least one array to concatenate")
  | a :: rest =>
    if rest.all (fun b => b.length = a.length) then
      .ok (a :: rest)
    else
      .error (.valueError "all the input array dimensions must match exactly")

/-- The Python list comprehension `[f(m) for m in X]` under exception
semantics: evaluates `f` left to right and aborts at the first exception,
producing no partial list. -/
def mapExcept {α β ε : Type} (f : α → Except ε β) : List α → Except ε (List β)
  | [] => .ok []
  | a :: as =>
    match f a with
    | .error e => .error e
    | .ok b =>
      match mapExcept f as with
      | .error e => .error e
      | .ok bs => .ok (b :: bs)

/-- `compute_morgan_fingerprints(smiles, fingerprint_length, fingerprint_radius)`
from the notebook: parse the molecule, compute the fingerprint with the
radius and bit length, and convert it to an array (the `np.zeros((1,))`
destination is resized by the conversion). -/
def compute_morgan_fingerprints (smiles : String) (fingerprint_length fingerprint_radius : Int) :
    Except RDError (List Bool) :=
  let molecule := Chem.MolFromSmiles smiles
  match AllChem.GetMorganFingerprintAsBitVect molecule fingerprint_radius fingerprint_length with
  | .error e => .error e
  | .ok fingerprint =>
    let arr := np.zeros 1
    .ok (DataStructs.ConvertToNumpyArray fingerprint arr)

/-- `MorganFingerprintTransformer`: its entire instance state is the two
configuration attributes set by `__init__` (the class body declares nothing
else, and no method assigns any other attribute). -/
structure MorganFingerprintTransformer where
  length : Int
  radius : Int
deriving DecidableEq, Repr

/-- `MorganFingerprintTransformer.__init__(self, length, radius)`: stores the
two configuration values without any validation. -/
def MorganFingerprintTransformer.init (length radius : Int) : MorganFingerprintTransformer :=
  ⟨length, radius⟩

/-- `MorganFingerprintTransformer()` called with no arguments: `__init__`
declares the defaults `length=256` and `radius=4`. -/
def MorganFingerprintTransformer.initDefault : MorganFingerprintTransformer :=
  MorganFingerprintTransformer.init 256 4

/-- `MorganFingerprintTransformer.fit(self, X, y=None)`: the body is
`return self`. -/
def MorganFingerprintTransformer.fit {α : Type} (self : MorganFingerprintTransformer)
    (X : List String) (y : Option α) : MorganFingerprintTransformer :=
  self

/-- `MorganFingerprintTransformer.transform(self, X, y=None)`:
`fing = [compute_morgan_fingerprints(m, self.length, self.radius) for m in X]`
then `return np.vstack(fing)`. -/
def MorganFingerprintTransformer.transform {α : Type} (self : MorganFingerprintTransformer)
    (X : List String) (y : Option α) : Except RDError (List (List Bool)) :=
  match mapExcept (fun m => compute_morgan_fingerprints m self.length self.radius) X with
  | .error e => .error e
  | .ok fing => np.vstack fing

/-- Python attribute assignment `self.length = l` (as in the notebook's
`m.length = 256` and `model.set_params(fingerprint__length=l)`): replaces the
`length` attribute, touching nothing else. -/
def MorganFingerprintTransformer.setLength (self : MorganFingerprintTransformer) (l : Int) :
    MorganFingerprintTransformer :=
  { self with length := l }

/-- A `transform` method call as a transition on the instance state: the
method body contains no attribute assignment, so the post-call state is the
pre-call state and the returned value is computed from that state and the
arguments alone. -/
def MorganFingerprintTransformer.transformStep {α : Type} (self : MorganFingerprintTransformer)
    (X : List String) (y : Option α) :
    MorganFingerprintTransformer × Except RDError (List (List Bool)) :=
  (self, self.transform X y)

/-- The feature vector a valid identifier decodes to under configuration
`(L, R)` (the value `compute_morgan_fingerprints` returns on success). -/
def fingerprintOf (L R : Int) (m : String) : List Bool :=
  match Chem.MolFromSmiles m with
  | some mol => morganBits mol R.toNat L.toNat
  | none => []

/-! ### General lemmas about the embedding -/

/-- The modelled fingerprint always has exactly `nBits` bits. -/
theorem morganBits_length (mol : Mol) (radius nBits : Nat) :
    (morganBits mol radius nBits).length = nBits := by
  simp [morganBits]

/-- A successful comprehension produces one output per input. -/
theorem mapExcept_ok_length {α β ε : Type} {f : α → Except ε β} :
    ∀ {xs : List α} {ys : List β}, mapExcept f xs = .ok ys → ys.length = xs.length := by
  intro xs
  induction xs with
  | nil =>
    intro ys h
    simp [mapExcept] at h
    simp [← h]
  | cons a as ih =>
    intro ys h
    cases hfa : f a with
    | error e => simp [mapExcept, hfa] at h
    | ok b =>
      cases hrec : mapExcept f as with
      | error e => simp [mapExcept, hfa, hrec] at h
      | ok bs =>
        simp [mapExcept, hfa, hrec] at h
        subst h
        simp [ih hrec]

/-- A successful comprehension maps the `i`-th input to the `i`-th output. -/
theorem mapExcept_ok_get {α β ε : Type} {f : α → Except ε β} :
    ∀ {xs : List α} {ys : List β}, mapExcept f xs = .ok ys →
      ∀ i (hi : i < xs.length), ∃ hiy : i < ys.length,
        f (xs.get ⟨i, hi⟩) = .ok (ys.get ⟨i, hiy⟩) := by
  intro xs
  induction xs with
  | nil =>
    intro ys h i hi
    exact absurd hi (by simp)
  | cons a as ih =>
    intro ys h i hi
    cases hfa : f a with
    | error e => simp [mapExcept, hfa] at h
    | ok b =>
      cases hrec : mapExcept f as with
      | error e => simp [mapExcept, hfa, hrec] at h
      | ok bs =>
        simp [mapExcept, hfa, hrec] at h
        subst h
        cases i with
        | zero => exact ⟨by simp, by simpa using hfa⟩
        | succ j =>
          have hj : j < as.length := by simpa using hi
          obtain ⟨hjy, hget⟩ := ih hrec j hj
          exact ⟨by simpa using hjy, by simpa using hget⟩

/-- Every output of a successful comprehension comes from some input. -/
theorem mapExcept_ok_mem {α β ε : Type} {f : α → Except ε β} :
    ∀ {xs : List α} {ys : List β}, mapExcept f xs = .ok ys →
      ∀ b ∈ ys, ∃ a ∈ xs, f a = .ok b := by
  intro xs
  induction xs with
  | nil =>
    intro ys h b hb
    simp [mapExcept] at h
    subst h
    simp at hb
  | cons a as ih =>
    intro ys h b hb
    cases hfa : f a with
    | error e => simp [mapExcept, hfa] at h
    | ok b0 =>
      cases hrec : mapExcept f as with
      | error e => simp [mapExcept, hfa, hrec] at h
      | ok bs =>
        simp [mapExcept, hfa, hrec] at h
        subst h
        rcases List.mem_cons.mp hb with rfl | hb'
        · exact ⟨a, by simp, hfa⟩
        · obtain ⟨x, hx, hfx⟩ := ih hrec b hb'
          exact ⟨x, by simp [hx], hfx⟩

/-- A comprehension whose body succeeds everywhere computes the plain map. -/
theorem mapExcept_map {α β ε : Type} {f : α → Except ε β} {g : α → β} :
    ∀ {xs : List α}, (∀ a ∈ xs, f a = .ok (g a)) → mapExcept f xs = .ok (xs.map g) := by
  intro xs
  induction xs with
  | nil => intro _; rfl
  | cons a as ih =>
    intro h
    have ha := h a (by simp)
    have hrec := ih (fun x hx => h x (by simp [hx]))
    simp [mapExcept, ha, hrec]

/-- If every element either succeeds or raises the one error `e`, and some
element raises it, the comprehension aborts with exactly `e` (the error value
is independent of the failing position). -/
theorem mapExcept_first_error {α β ε : Type} {f : α → Except ε β} {e : ε} :
    ∀ {xs : List α}, (∀ a ∈ xs, f a = .error e ∨ ∃ b, f a = .ok b) →
      (∃ a ∈ xs, f a = .error e) → mapExcept f xs = .error e := by
  intro xs
  induction xs with
  | nil =>
    intro _ hbad
    simp at hbad
  | cons a as ih =>
    intro hclass hbad
    rcases hclass a (by simp) with ha | ⟨b, hb⟩
    · simp [mapExcept, ha]
    · have htail : ∃ x ∈ as, f x = .error e := by
        rcases hbad with ⟨x, hx, hfx⟩
        rcases List.mem_cons.mp hx with rfl | hx'
        · rw [hb] at hfx
          exact absurd hfx (by simp)
        · exact ⟨x, hx', hfx⟩
      have hrec := ih (fun x hx => hclass x (by simp [hx])) htail
      simp [mapExcept, hb, hrec]

/-- A successful stack returns its rows unchanged. -/
theorem vstack_ok_eq {arrays M : List (List Bool)} (h : np.vstack arrays = .ok M) :
    M = arrays := by
  cases arrays with
  | nil => simp [np.vstack] at h
  | cons a rest =>
    cases hall : rest.all (fun b => b.length = a.length) with
    | true =>
      simp [np.vstack, hall] at h
      simp [← h]
    | false => simp [np.vstack, hall] at h

/-- Stacking a nonempty list of equal-length rows succeeds. -/
theorem vstack_uniform {a : List Bool} {rest : List (List Bool)}
    (h : ∀ b ∈ rest, b.length = a.length) : np.vstack (a :: rest) = .ok (a :: rest) := by
  have hall : rest.all (fun b => b.length = a.length) = true := by
    simp only [List.all_eq_true, decide_eq_true_eq]
    exact h
  simp [np.vstack, hall]

/-- A malformed identifier makes the per-element computation fail with the
library's signature-mismatch error, which mentions only the argument types. -/
theorem compute_malformed {smiles : String} {L R : Int}
    (hmol : Chem.MolFromSmiles smiles = none) :
    compute_morgan_fingerprints smiles L R
      = .error (RDError.argumentError "(NoneType, int, int)") := by
  simp [compute_morgan_fingerprints, AllChem.GetMorganFingerprintAsBitVect, hmol]

/-- A valid identifier under a positive bit length and nonnegative radius is
featurized successfully, to the deterministic model fingerprint. -/
theorem compute_valid {smiles : String} {mol : Mol} {L R : Int}
    (hmol : Chem.MolFromSmiles smiles = some mol) (hL : 0 < L) (hR : 0 ≤ R) :
    compute_morgan_fingerprints smiles L R = .ok (morganBits mol R.toNat L.toNat) := by
  have hneg : ¬(R < 0 ∨ L < 0) := by omega
  have hz : ¬(L = 0) := by omega
  simp [compute_morgan_fingerprints, AllChem.GetMorganFingerprintAsBitVect, hmol, hneg, hz,
    DataStructs.ConvertToNumpyArray]

/-- A successfully computed per-element vector has exactly `L` entries. -/
theorem compute_ok_length {smiles : String} {L R : Int} {row : List Bool}
    (h : compute_morgan_fingerprints smiles L R = .ok row) : row.length = L.toNat := by
  cases hmol : Chem.MolFromSmiles smiles with
  | none =>
    rw [compute_malformed hmol] at h
    simp at h
  | some mol =>
    by_cases hneg : R < 0 ∨ L < 0
    · simp [compute_morgan_fingerprints, AllChem.GetMorganFingerprintAsBitVect, hmol, hneg] at h
    · by_cases hz : L = 0
      · have hRpos : ¬R < 0 := fun hr => hneg (Or.inl hr)
        simp [compute_morgan_fingerprints, AllChem.GetMorganFingerprintAsBitVect, hmol, hneg,
          hz, hRpos] at h
      · simp [compute_morgan_fingerprints, AllChem.GetMorganFingerprintAsBitVect, hmol, hneg,
          hz, DataStructs.ConvertToNumpyArray] at h
        simp [← h, morganBits_length]

/-- The length of a decoded fingerprint of a valid identifier. -/
theorem fingerprintOf_length {L R : Int} {m : String} (h : Chem.MolFromSmiles m ≠ none) :
    (fingerprintOf L R m).length = L.toNat := by
  cases hmol : Chem.MolFromSmiles m with
  | none => exact absurd hmol h
  | some mol => simp [fingerprintOf, hmol, morganBits_length]

/-- A successful `transform` call is exactly a successful comprehension: the
stacking step returns the per-element vectors unchanged. -/
theorem transform_ok_mapExcept {t : MorganFingerprintTransformer} {X : List String}
    {M : List (List Bool)} (h : t.transform X (none : Option Unit) = .ok M) :
    mapExcept (fun m => compute_morgan_fingerprints m t.length t.radius) X = .ok M := by
  unfold MorganFingerprintTransformer.transform at h
  revert h
  cases mapExcept (fun m => compute_morgan_fingerprints m t.length t.radius) X with
  | error e =>
    intro h
    simp at h
  | ok fing =>
    intro h
    rw [vstack_ok_eq h]

/-- Every row of a successful `transform` result has the configured width. -/
theorem transform_rows_length {t : MorganFingerprintTransformer} {X : List String}
    {M : List (List Bool)} (h : t.transform X (none : Option Unit) = .ok M) :
    ∀ row ∈ M, row.length = t.length.toNat := by
  intro row hrow
  obtain ⟨m, hm, hfm⟩ := mapExcept_ok_mem (transform_ok_mapExcept h) row hrow
  exact compute_ok_length hfm

/-! ### Claims -/

/-- C1 (amended): for every batch containing a malformed molecule identifier
(under a positive configured length and nonnegative radius), `transform`
fails wholesale — no partial feature matrix is returned — but the error it
raises is the external library's signature-mismatch `ArgumentError`, whose
payload describes only the argument types of the failed call: it identifies
neither the offending element nor its position in the batch. -/
theorem morgan_decode_failure_whole_batch (L R : Int) (X : List String)
    (hL : 0 < L) (hR : 0 ≤ R)
    (hbad : ∃ m ∈ X, Chem.MolFromSmiles m = none) :
    (MorganFingerprintTransformer.init L R).transform X (none : Option Unit)
      = .error (RDError.argumentError "(NoneType, int, int)") := by
  have hclass : ∀ m ∈ X,
      compute_morgan_fingerprints m L R
          = .error (RDError.argumentError "(NoneType, int, int)")
        ∨ ∃ b, compute_morgan_fingerprints m L R = .ok b := by
    intro m _
    cases hmol : Chem.MolFromSmiles m with
    | none => exact Or.inl (compute_malformed hmol)
    | some mol => exact Or.inr ⟨_, compute_valid hmol hL hR⟩
  have hone : ∃ m ∈ X, compute_morgan_fingerprints m L R
      = .error (RDError.argumentError "(NoneType, int, int)") := by
    obtain ⟨m, hm, hmol⟩ := hbad
    exact ⟨m, hm, compute_malformed hmol⟩
  have hmap := mapExcept_first_error hclass hone
  simp [MorganFingerprintTransformer.transform, MorganFingerprintTransformer.init, hmap]

/-- C1 witness: the batch `["not-a-valid-identifier"]` under configuration
`(4, 4)` fails wholesale with the position-blind argument error. -/
theorem morgan_decode_failure_whole_batch_witness :
    (MorganFingerprintTransformer.init 4 4).transform ["not-a-valid-identifier"]
        (none : Option Unit)
      = .error (RDError.argumentError "(NoneType, int, int)") :=
  morgan_decode_failure_whole_batch 4 4 ["not-a-valid-identifier"] (by decide) (by decide)
    ⟨"not-a-valid-identifier", by simp, by decide⟩

/-- C1 counterexample: the claim says the error references index 0 for the
batch `["not-a-valid-identifier"]` and index 1 for the batch
`["C", "not-a-valid-identifier"]`; in fact both calls raise the literally
identical error value, so the error identifies neither the offending element
nor its position. -/
theorem morgan_decode_error_position_blind :
    (MorganFingerprintTransformer.init 4 4).transform ["not-a-valid-identifier"]
        (none : Option Unit)
      = .error (RDError.argumentError "(NoneType, int, int)")
  ∧ (MorganFingerprintTransformer.init 4 4).transform ["C", "not-a-valid-identifier"]
        (none : Option Unit)
      = .error (RDError.argumentError "(NoneType, int, int)") :=
  ⟨rfl, rfl⟩

/-- C2 (amended): for every nonempty batch of `N` valid identifiers, every
positive configured length `L` and nonnegative radius, `transform` returns a
rectangular matrix of shape `(N, L)`; the empty batch (`N = 0`) instead
raises an error from the stacking step. -/
theorem morgan_shape_invariant (L R : Int) (X : List String)
    (hL : 0 < L) (hR : 0 ≤ R) (hX : X ≠ [])
    (hvalid : ∀ m ∈ X, Chem.MolFromSmiles m ≠ none) :
    ∃ M, (MorganFingerprintTransformer.init L R).transform X (none : Option Unit) = .ok M
      ∧ M.length = X.length
      ∧ ∀ row ∈ M, row.length = L.toNat := by
  have hmap : mapExcept (fun m => compute_morgan_fingerprints m L R) X
      = .ok (X.map (fingerprintOf L R)) := by
    apply mapExcept_map
    intro a ha
    cases hmol : Chem.MolFromSmiles a with
    | none => exact absurd hmol (hvalid a ha)
    | some mol =>
      rw [compute_valid hmol hL hR]
      simp [fingerprintOf, hmol]
  obtain ⟨x, xs, rfl⟩ := List.exists_cons_of_ne_nil hX
  have hrows : ∀ row ∈ (x :: xs).map (fingerprintOf L R), row.length = L.toNat := by
    intro row hrow
    obtain ⟨a, ha, rfl⟩ := List.mem_map.mp hrow
    exact fingerprintOf_length (hvalid a ha)
  refine ⟨(x :: xs).map (fingerprintOf L R), ?_, by simp, hrows⟩
  have hstack : np.vstack (fingerprintOf L R x :: xs.map (fingerprintOf L R))
      = .ok (fingerprintOf L R x :: xs.map (fingerprintOf L R)) := by
    apply vstack_uniform
    intro b hb
    obtain ⟨a, ha, rfl⟩ := List.mem_map.mp hb
    rw [fingerprintOf_length (hvalid a (by simp [ha])),
      fingerprintOf_length (hvalid x (by simp))]
  simp [MorganFingerprintTransformer.transform, MorganFingerprintTransformer.init, hmap, hstack]

/-- C2 witness: the batch `["C"]` under configuration `(4, 4)` yields a
matrix of one row of four entries. -/
theorem morgan_shape_invariant_witness :
    ∃ M, (MorganFingerprintTransformer.init 4 4).transform ["C"] (none : Option Unit) = .ok M
      ∧ M.length = (["C"] : List String).length
      ∧ ∀ row ∈ M, row.length = (4 : Int).toNat :=
  morgan_shape_invariant 4 4 ["C"] (by decide) (by decide) (by decide) (by decide)

/-- C2 counterexample: a batch of size `N = 0` does not yield a matrix of
shape `(0, L)` — the call fails with numpy's stacking error instead. -/
theorem morgan_empty_batch_error :
    (MorganFingerprintTransformer.init 4 4).transform ([] : List String) (none : Option Unit)
      = .error (RDError.valueError "need at least one array to concatenate") :=
  rfl

/-- C3: calling `transform` twice in a row on the same instance with the same
batch yields bit-identical results — the featurization is a pure function of
the configuration and the input, and the first call leaves no hidden state
behind for the second to observe (the transition function returns the state
unchanged). -/
theorem morgan_transform_deterministic (t : MorganFingerprintTransformer) (X : List String) :
    (t.transformStep X (none : Option Unit)).2
      = ((t.transformStep X (none : Option Unit)).1.transformStep X (none : Option Unit)).2 :=
  rfl

/-- C4: whenever `transform` succeeds, the `i`-th row of the returned matrix
is exactly the feature vector computed from the `i`-th input identifier under
the current configuration — input order is preserved. -/
theorem morgan_order_preserved (t : MorganFingerprintTransformer) (X : List String)
    (M : List (List Bool)) (h : t.transform X (none : Option Unit) = .ok M)
    (i : Nat) (hi : i < X.length) :
    ∃ hiM : i < M.length,
      compute_morgan_fingerprints (X.get ⟨i, hi⟩) t.length t.radius = .ok (M.get ⟨i, hiM⟩) :=
  mapExcept_ok_get (transform_ok_mapExcept h) i hi

/-- C4 witness: instantiated at the batch `["C"]`, configuration `(4, 4)`,
row 0. -/
theorem morgan_order_preserved_witness :
    ∃ hiM : 0 < ([[true, true, true, true]] : List (List Bool)).length,
      compute_morgan_fingerprints ((["C"] : List String).get ⟨0, by decide⟩)
          (MorganFingerprintTransformer.init 4 4).length
          (MorganFingerprintTransformer.init 4 4).radius
        = .ok (([[true, true, true, true]] : List (List Bool)).get ⟨0, hiM⟩) :=
  morgan_order_preserved (MorganFingerprintTransformer.init 4 4) ["C"]
    [[true, true, true, true]] rfl 0 (by decide)

/-- C5: `fit` returns the very transformer it was called on, for every batch
and every optional target sequence — so it performs no learning, leaves the
`(length, radius)` configuration unchanged, and, being a total function of an
arbitrary input list, never fails on an iterable input. -/
theorem morgan_fit_noop (t : MorganFingerprintTransformer) (X : List String) (y : Option Int) :
    t.fit X y = t :=
  rfl

/-- C6 (amended): construction stores a non-positive length or radius without
any validation (no error at construction), and a call to `transform` on a
nonempty batch of valid identifiers with a negative length or radius, or a
zero length, fails at call time — but with an error originating in the
external fingerprint library (argument-conversion or precondition error), not
a dedicated `ConfigurationError`; and a radius of 0 is not an error at all. -/
theorem morgan_config_error_call_time (L R : Int) (X : List String)
    (hX : X ≠ []) (hvalid : ∀ m ∈ X, Chem.MolFromSmiles m ≠ none)
    (hbad : L ≤ 0 ∨ R < 0) :
    (MorganFingerprintTransformer.init L R).length = L
  ∧ (MorganFingerprintTransformer.init L R).radius = R
  ∧ ∃ e, (MorganFingerprintTransformer.init L R).transform X (none : Option Unit)
      = .error e := by
  refine ⟨rfl, rfl, ?_⟩
  obtain ⟨x, xs, rfl⟩ := List.exists_cons_of_ne_nil hX
  have hx := hvalid x (by simp)
  have hfail : ∃ e, compute_morgan_fingerprints x L R = .error e := by
    cases hmol : Chem.MolFromSmiles x with
    | none => exact ⟨_, compute_malformed hmol⟩
    | some mol =>
      by_cases hneg : R < 0 ∨ L < 0
      · exact ⟨RDError.argumentError "(Mol, int, int)", by
          simp [compute_morgan_fingerprints,
            AllChem.GetMorganFingerprintAsBitVect, hmol, hneg]⟩
      · have hz : L = 0 := by omega
        have hRpos : ¬R < 0 := fun hr => hneg (Or.inl hr)
        exact ⟨RDError.preconditionError "nBits can not be zero", by
          simp [compute_morgan_fingerprints,
            AllChem.GetMorganFingerprintAsBitVect, hmol, hneg, hz, hRpos]⟩
  obtain ⟨e, he⟩ := hfail
  refine ⟨e, ?_⟩
  simp [MorganFingerprintTransformer.transform, MorganFingerprintTransformer.init,
    mapExcept, he]

/-- C6 witness: length 0, radius 4, batch `["C"]` — stored unvalidated at
construction, error raised at call time. -/
theorem morgan_config_error_call_time_witness :
    (MorganFingerprintTransformer.init 0 4).length = 0
  ∧ (MorganFingerprintTransformer.init 0 4).radius = 4
  ∧ ∃ e, (MorganFingerprintTransformer.init 0 4).transform ["C"] (none : Option Unit)
      = .error e :=
  morgan_config_error_call_time 0 4 ["C"] (by decide) (by decide) (Or.inl (by decide))

/-- C6 counterexample: radius 0 is non-positive, yet `transform` under
configuration `(length := 4, radius := 0)` raises no error on `["C"]` — it
returns a matrix (the library accepts radius 0). -/
theorem morgan_radius_zero_accepted :
    (MorganFingerprintTransformer.init 4 0).transform ["C"] (none : Option Unit)
      = .ok [[false, false, true, false]] :=
  rfl

/-- C7: a `transform` call returns the instance state unchanged (it mutates
neither the configuration nor anything else); setting a new length afterwards
changes only the `length` attribute (the radius is untouched), and it governs
only the later call's output width: the matrix already returned by the
earlier call has rows of the old width, the later call's rows have the new
width. -/
theorem morgan_no_mutation_config_isolation (t : MorganFingerprintTransformer)
    (X Y : List String) (L2 : Int) (M M2 : List (List Bool))
    (h1 : t.transform X (none : Option Unit) = .ok M)
    (h2 : ((t.transformStep X (none : Option Unit)).1.setLength L2).transform Y
        (none : Option Unit) = .ok M2) :
    (t.transformStep X (none : Option Unit)).1 = t
  ∧ ((t.transformStep X (none : Option Unit)).1.setLength L2).radius = t.radius
  ∧ (∀ row ∈ M, row.length = t.length.toNat)
  ∧ (∀ row ∈ M2, row.length = L2.toNat) := by
  refine ⟨rfl, rfl, transform_rows_length h1, ?_⟩
  have h2' : (t.setLength L2).transform Y (none : Option Unit) = .ok M2 := h2
  have hr := transform_rows_length h2'
  simpa [MorganFingerprintTransformer.setLength] using hr

/-- C7 witness: configuration `(4, 4)`, batch `["C"]`, then length set to 8
and the same batch converted again — the first matrix has width 4, the second
width 8, the radius is still 4. -/
theorem morgan_no_mutation_config_isolation_witness :
    ((MorganFingerprintTransformer.init 4 4).transformStep ["C"] (none : Option Unit)).1
      = MorganFingerprintTransformer.init 4 4
  ∧ (((MorganFingerprintTransformer.init 4 4).transformStep ["C"]
        (none : Option Unit)).1.setLength 8).radius
      = (MorganFingerprintTransformer.init 4 4).radius
  ∧ (∀ row ∈ ([[true, true, true, true]] : List (List Bool)),
      row.length = (MorganFingerprintTransformer.init 4 4).length.toNat)
  ∧ (∀ row ∈ ([[true, true, true, false, false, false, true, true]] : List (List Bool)),
      row.length = (8 : Int).toNat) :=
  morgan_no_mutation_config_isolation (MorganFingerprintTransformer.init 4 4) ["C"] ["C"] 8
    [[true, true, true, true]] [[true, true, true, false, false, false, true, true]]
    rfl rfl

/-- C8: with configuration `length = 4, radius = 4`, converting the methane
identifier `"C"` produces a single feature vector of length 4, and a second
call on the same instance produces the identical result. -/
theorem morgan_methane_example :
    (∃ v, (MorganFingerprintTransformer.init 4 4).transform ["C"] (none : Option Unit)
        = .ok [v] ∧ v.length = 4)
  ∧ ((MorganFingerprintTransformer.init 4 4).transformStep ["C"] (none : Option Unit)).2
      = (((MorganFingerprintTransformer.init 4 4).transformStep ["C"]
          (none : Option Unit)).1.transformStep ["C"] (none : Option Unit)).2 :=
  ⟨⟨[true, true, true, true], rfl, rfl⟩, rfl⟩

/-- C9: `transform` on the empty batch fails — `np.vstack` rejects the empty
list of per-element vectors — instead of returning an empty `(0, length)`
matrix, whatever the configuration. -/
theorem morgan_empty_batch_fails (t : MorganFingerprintTransformer) :
    t.transform ([] : List String) (none : Option Unit)
      = .error (RDError.valueError "need at least one array to concatenate") :=
  rfl

/-- C10: a `MorganFingerprintTransformer` constructed with no arguments has
configuration `length = 256` and `radius = 4`. -/
theorem morgan_default_config :
    MorganFingerprintTransformer.initDefault.length = 256
  ∧ MorganFingerprintTransformer.initDefault.radius = 4 :=
  ⟨rfl, rfl⟩
